/-
  Verification of the Dynamic-Preview-Editors plugin (src/main.ts,
  src/settings/settings.ts) against its natural-language specification.

  The embedding models JavaScript strings as lists of characters
  (`JSString`), fallible host lookups as `Option`, and the side-effecting
  parts of the plugin (scheduling, sidebar opening, popover lifecycle) as
  pure state-transition functions or effect traces.
-/
import Mathlib

namespace DynamicPreviewEditors

/-- JavaScript strings, modelled structurally as lists of characters. -/
abbrev JSString := List Char

/-! ## Settings (src/settings/settings.ts)

`HoverEditorSettings` is the runtime settings record.  Enumerated fields
(`defaultMode`, `autoPin`, the five per-link-type modes, `sidebarPosition`)
are plain JavaScript strings at runtime — the TypeScript union types are
erased — so they are modelled as `String`. -/

structure HoverEditorSettings where
  defaultMode : String
  autoPin : String
  triggerDelay : Int
  closeDelay : Int
  autoFocus : Bool
  rollDown : Bool
  snapToEdges : Bool
  initialHeight : String
  initialWidth : String
  showViewHeader : Bool
  imageZoom : Bool
  footnotes : String
  headings : String
  blocks : String
  hoverEmbeds : String
  sidebarAutoFocus : Bool
  sidebarPosition : String
  sidebarAutoReveal : Bool
  regularLinks : String
  deriving Repr, DecidableEq

/-- `DEFAULT_SETTINGS` from src/settings/settings.ts lines 28-48. -/
def DEFAULT_SETTINGS : HoverEditorSettings where
  regularLinks := "sidebar"
  defaultMode := "match"
  autoPin := "onMove"
  triggerDelay := 300
  closeDelay := 600
  autoFocus := true
  rollDown := false
  snapToEdges := false
  initialHeight := "340px"
  initialWidth := "400px"
  showViewHeader := false
  imageZoom := true
  footnotes := "native"
  headings := "sidebar"
  blocks := "floating"
  hoverEmbeds := "sidebar"
  sidebarAutoFocus := false
  sidebarPosition := "right"
  sidebarAutoReveal := true

/-- The persisted settings record as returned by `loadData()`: every key may
be absent.  Values present in the stored JSON are whatever strings /
numbers / booleans were written, with no runtime validation. -/
structure StoredSettingsData where
  defaultMode : Option String := none
  autoPin : Option String := none
  triggerDelay : Option Int := none
  closeDelay : Option Int := none
  autoFocus : Option Bool := none
  rollDown : Option Bool := none
  snapToEdges : Option Bool := none
  initialHeight : Option String := none
  initialWidth : Option String := none
  showViewHeader : Option Bool := none
  imageZoom : Option Bool := none
  footnotes : Option String := none
  headings : Option String := none
  blocks : Option String := none
  hoverEmbeds : Option String := none
  sidebarAutoFocus : Option Bool := none
  sidebarPosition : Option String := none
  sidebarAutoReveal : Option Bool := none
  regularLinks : Option String := none
  deriving Repr, DecidableEq

/-- `loadSettings` (src/main.ts lines 693-695):
`this.settings = Object.assign({}, DEFAULT_SETTINGS, await this.loadData())`.
`loadData()` yields `null` when no data file exists (`none` here);
`Object.assign` overrides a default with the stored value exactly when the
key is present in the stored record, copying the value unchanged. -/
def loadSettings (stored : Option StoredSettingsData) : HoverEditorSettings :=
  match stored with
  | none => DEFAULT_SETTINGS
  | some o =>
    { defaultMode := o.defaultMode.getD DEFAULT_SETTINGS.defaultMode
      autoPin := o.autoPin.getD DEFAULT_SETTINGS.autoPin
      triggerDelay := o.triggerDelay.getD DEFAULT_SETTINGS.triggerDelay
      closeDelay := o.closeDelay.getD DEFAULT_SETTINGS.closeDelay
      autoFocus := o.autoFocus.getD DEFAULT_SETTINGS.autoFocus
      rollDown := o.rollDown.getD DEFAULT_SETTINGS.rollDown
      snapToEdges := o.snapToEdges.getD DEFAULT_SETTINGS.snapToEdges
      initialHeight := o.initialHeight.getD DEFAULT_SETTINGS.initialHeight
      initialWidth := o.initialWidth.getD DEFAULT_SETTINGS.initialWidth
      showViewHeader := o.showViewHeader.getD DEFAULT_SETTINGS.showViewHeader
      imageZoom := o.imageZoom.getD DEFAULT_SETTINGS.imageZoom
      footnotes := o.footnotes.getD DEFAULT_SETTINGS.footnotes
      headings := o.headings.getD DEFAULT_SETTINGS.headings
      blocks := o.blocks.getD DEFAULT_SETTINGS.blocks
      hoverEmbeds := o.hoverEmbeds.getD DEFAULT_SETTINGS.hoverEmbeds
      sidebarAutoFocus := o.sidebarAutoFocus.getD DEFAULT_SETTINGS.sidebarAutoFocus
      sidebarPosition := o.sidebarPosition.getD DEFAULT_SETTINGS.sidebarPosition
      sidebarAutoReveal := o.sidebarAutoReveal.getD DEFAULT_SETTINGS.sidebarAutoReveal
      regularLinks := o.regularLinks.getD DEFAULT_SETTINGS.regularLinks }

/-! ## Link parsing and classification (src/main.ts, patchLinkHover) -/

/-- Result of the host collaborator `parseLinktext`. -/
structure ParsedLink where
  path : JSString
  subpath : JSString
  deriving Repr, DecidableEq

/-- Host collaborator `obsidian.parseLinktext`: splits the link text at the
first `#`; `path` is everything before it, `subpath` is the rest including
the `#` itself ( `""` when there is no `#`). -/
def parseLinktext : JSString → ParsedLink
  | [] => ⟨[], []⟩
  | c :: rest =>
    if c = '#' then ⟨[], c :: rest⟩
    else
      let p := parseLinktext rest
      ⟨c :: p.path, p.subpath⟩

/-- The mode-classification block of the patched `onLinkHover`
(src/main.ts lines 508-526): footnote sigil `#[^` first, then block sigil
`#^`, then heading; with no subpath, embed marker `!` selects
`hoverEmbeds`, else `regularLinks`. -/
def onLinkHoverMode (s : HoverEditorSettings) (linkText : JSString) : String :=
  let subpath := (parseLinktext linkText).subpath
  if subpath.head? = some '#' then
    if ('#' :: '[' :: '^' :: []).isPrefixOf subpath then s.footnotes
    else if ('#' :: '^' :: []).isPrefixOf subpath then s.blocks
    else s.headings
  else if ('!' :: []).isPrefixOf linkText then s.hoverEmbeds
  else s.regularLinks

/-- A non-empty parsed subpath always starts with `#`. -/
theorem parseLinktext_subpath_head (l : JSString) :
    (parseLinktext l).subpath = [] ∨ (parseLinktext l).subpath.head? = some '#' := by
  induction l with
  | nil => exact Or.inl rfl
  | cons c rest ih =>
    by_cases h : c = '#'
    · right
      simp [parseLinktext, h]
    · simpa [parseLinktext, h] using ih

/-! ## Hover dispatch (src/main.ts, patchLinkHover lines 528-559)

After classification, the patched `onLinkHover` either delegates to the
host's original handler (`mode === "native"`), or wraps the rest of the
work in the `handleHover` closure, run after `triggerDelay` ms via
`setTimeout` when the delay is positive and synchronously otherwise. -/

/-- Host file handle (`TFile`); only its path is relevant here. -/
structure TFile where
  path : JSString
  deriving Repr, DecidableEq

/-- The arguments the host passes to `onLinkHover`; `parent` and
`targetEl` are opaque object identities. -/
structure HoverArgs where
  parent : Nat
  targetEl : Nat
  linkText : JSString
  path : JSString
  deriving Repr, DecidableEq

/-- What the `handleHover` closure ends up doing. -/
inductive HoverAction where
  /-- `old.call(this, parent, targetEl, linkText, path, state, ...args)` —
  the host's native hover behaviour with the original arguments. -/
  | callNative (args : HoverArgs)
  /-- `plugin.openFileInSidebar(file, linkText, state)`. -/
  | openSidebar (file : TFile) (linkText : JSString)
  /-- `onLinkHover(plugin, parent, targetEl, linkText, path, state, ...args)`. -/
  | openFloating (file : TFile) (args : HoverArgs)
  deriving Repr, DecidableEq

/-- The `handleHover` closure (src/main.ts lines 534-552): resolve the
link's path against the originating file's path via the host collaborator
`getFirstLinkpathDest` (`resolve` here); when no file resolves, fall back
to the native handler with the original arguments; otherwise dispatch on
the mode. -/
def handleHover (mode : String) (resolve : JSString → JSString → Option TFile)
    (args : HoverArgs) : HoverAction :=
  match resolve (parseLinktext args.linkText).path args.path with
  | none => HoverAction.callNative args
  | some file =>
    if mode = "sidebar" then HoverAction.openSidebar file args.linkText
    else HoverAction.openFloating file args

/-- The overall outcome of one patched `onLinkHover` invocation. -/
inductive DispatchResult where
  /-- Native mode: `return old.call(...)` immediately, original args. -/
  | immediateNative (args : HoverArgs)
  /-- `setTimeout(handleHover, triggerDelay)` with `triggerDelay > 0`. -/
  | delayed (delay : Int) (action : HoverAction)
  /-- `handleHover()` called synchronously (`triggerDelay ≤ 0`). -/
  | immediate (action : HoverAction)
  deriving Repr, DecidableEq

/-- The patched `onLinkHover` (src/main.ts lines 499-560) as a whole:
classify, pass through natively, or run `handleHover` after the trigger
delay. -/
def onLinkHoverDispatch (s : HoverEditorSettings)
    (resolve : JSString → JSString → Option TFile) (args : HoverArgs) :
    DispatchResult :=
  let mode := onLinkHoverMode s args.linkText
  if mode = "native" then DispatchResult.immediateNative args
  else if s.triggerDelay > 0 then
    DispatchResult.delayed s.triggerDelay (handleHover mode resolve args)
  else DispatchResult.immediate (handleHover mode resolve args)

/-! ## Timer scheduling (for the debounce claims)

For claims about how many delayed actions get scheduled, the relevant
state is the multiset of pending `setTimeout` callbacks.  One invocation
of the patched `onLinkHover` appends at most one timer; nothing in
src/main.ts inspects or cancels existing timers. -/

/-- One pending `setTimeout(handleHover, triggerDelay)` callback,
identified by the hover's target element. -/
structure PendingHover where
  targetEl : Nat
  delay : Int
  deriving Repr, DecidableEq

/-- Effect of one patched `onLinkHover` invocation on the list of pending
delayed callbacks (src/main.ts lines 528-559): native mode and the
zero-delay path schedule nothing; otherwise exactly one new timer is
appended, unconditionally — the pending list is never consulted. -/
def onLinkHoverSchedule (s : HoverEditorSettings) (pending : List PendingHover)
    (targetEl : Nat) (linkText : JSString) : List PendingHover :=
  let mode := onLinkHoverMode s linkText
  if mode = "native" then pending
  else if s.triggerDelay > 0 then pending ++ [⟨targetEl, s.triggerDelay⟩]
  else pending

/-! ## Ephemeral state (src/main.ts, buildEphemeralState lines 150-162) -/

/-- A position in a file, as in Obsidian's `Loc`. -/
structure Loc where
  line : Nat
  col : Nat
  offset : Nat
  deriving Repr, DecidableEq

/-- Result of the host collaborator `resolveSubpath`: the structural range
the subpath resolves to.  `rend` stands for the source's `end` field
(`end` is a reserved word in Lean). -/
structure ResolvedRange where
  start : Loc
  rend : Loc
  deriving Repr, DecidableEq

/-- Opaque handle for a file's metadata cache entry
(`app.metadataCache.getFileCache(file)`). -/
structure FileCache where
  id : Nat
  deriving Repr, DecidableEq

/-- The `EphemeralState` record; every field may be absent
(`undefined`). -/
structure EphemeralStateM where
  subpath : Option JSString := none
  line : Option Nat := none
  startLoc : Option Loc := none
  endLoc : Option Loc := none
  deriving Repr, DecidableEq

/-- JavaScript `linktext.split("#")`: the list of segments between `#`
characters (an empty input yields `[""]`, a trailing `#` yields a final
empty segment). -/
def splitOnHash : JSString → List JSString
  | [] => [[]]
  | c :: rest =>
    match splitOnHash rest with
    | [] => [[]]
    | seg :: segs =>
      if c = '#' then [] :: seg :: segs else (c :: seg) :: segs

/-- `buildEphemeralState` (src/main.ts lines 150-162).
`subpath` is `linktext.split("#")[1]` when the text contains `#`
(the segment between the first and second `#`), else `""`; `resolved` is
`cache ? resolveSubpath(cache, subpath) : undefined`; the state starts as
`{ subpath: subpath ? "#" + subpath : undefined, ...oldState }` (the
spread lets a field of `oldState` override the computed one), and the
resolved line / start / end positions are written afterwards when
resolution succeeded. -/
def buildEphemeralState (resolveSubpath : FileCache → JSString → Option ResolvedRange)
    (cache : Option FileCache) (linktext : JSString)
    (oldState : Option EphemeralStateM) : EphemeralStateM :=
  let subpath : JSString :=
    if linktext.contains '#' then (splitOnHash linktext).getD 1 [] else []
  let resolved : Option ResolvedRange :=
    match cache with
    | some c => resolveSubpath c subpath
    | none => none
  let base : EphemeralStateM :=
    { subpath := if subpath ≠ [] then some ('#' :: subpath) else none }
  let eState : EphemeralStateM :=
    match oldState with
    | none => base
    | some o =>
      { subpath := o.subpath.orElse (fun _ => base.subpath)
        line := o.line
        startLoc := o.startLoc
        endLoc := o.endLoc }
  match resolved with
  | none => eState
  | some r =>
    { eState with
      line := some r.start.line
      startLoc := some r.start
      endLoc := some r.rend }

/-! ## Sidebar session (src/main.ts, openFileInSidebar lines 107-147) -/

/-- A workspace leaf (pane) handle; `disposed` is the host-maintained
liveness flag the plugin checks. -/
structure WorkspaceLeafM where
  id : Nat
  disposed : Bool
  deriving Repr, DecidableEq

/-- The host's sidebar-leaf accessors: `getLeftLeaf` / `getRightLeaf`,
taking the `shouldSplit`/create flag and returning a leaf or `null`. -/
structure SidebarHost where
  getLeftLeaf : Bool → Option WorkspaceLeafM
  getRightLeaf : Bool → Option WorkspaceLeafM

/-- The `getLeaf` closure of `openFileInSidebar` (src/main.ts lines
110-115): on the configured side, `getLeaf(false) ?? getLeaf(true)` —
prefer an existing leaf, else create one. -/
def acquireSidebarLeaf (s : HoverEditorSettings) (host : SidebarHost) :
    Option WorkspaceLeafM :=
  if s.sidebarPosition = "left" then
    (host.getLeftLeaf false).orElse (fun _ => host.getLeftLeaf true)
  else
    (host.getRightLeaf false).orElse (fun _ => host.getRightLeaf true)

/-- Effect of one `openFileInSidebar` call on the tracked
`currentSidebarLeaf` field (src/main.ts lines 108-116): reacquire exactly
when the tracked leaf is `null` or disposed, else keep it. -/
def updateSidebarLeaf (s : HoverEditorSettings) (host : SidebarHost)
    (currentSidebarLeaf : Option WorkspaceLeafM) : Option WorkspaceLeafM :=
  match currentSidebarLeaf with
  | none => acquireSidebarLeaf s host
  | some leaf =>
    if leaf.disposed then acquireSidebarLeaf s host else some leaf

/-- `getViewMode` (src/main.ts lines 164-171): `"match"` resolves to the
active view's mode, defaulting to `"preview"` when there is none. -/
def getViewMode (s : HoverEditorSettings) (activeViewMode : Option String) :
    String :=
  if s.defaultMode = "match" then activeViewMode.getD "preview"
  else s.defaultMode

/-- The host calls `openFileInSidebar` makes, in order. -/
inductive SidebarEffect where
  | setViewState (leafId : Nat) (filePath : JSString) (mode : String) (active : Bool)
  | setEphemeralState (leafId : Nat) (state : EphemeralStateM)
  | revealLeaf (leafId : Nat)
  | setActiveLeaf (leafId : Nat) (focus : Bool)
  deriving Repr, DecidableEq

/-- The host-call trace of `openFileInSidebar` (src/main.ts lines
120-147) once a leaf is in hand: `setViewState` with `active: true`; then
`revealLeaf` iff `sidebarAutoReveal`; then `setActiveLeaf(leaf, {focus:
true})` iff `sidebarAutoFocus`; finally the 50 ms-delayed
`setEphemeralState`, skipped when the leaf is disposed by the time the
timer fires (`disposedAtTimer`). -/
def openFileInSidebarEffects (s : HoverEditorSettings)
    (resolveSubpath : FileCache → JSString → Option ResolvedRange)
    (cache : Option FileCache) (activeViewMode : Option String)
    (leaf : WorkspaceLeafM) (file : TFile) (linkText : JSString)
    (oldState : Option EphemeralStateM) (disposedAtTimer : Bool) :
    List SidebarEffect :=
  let eState := buildEphemeralState resolveSubpath cache linkText oldState
  let mode := getViewMode s activeViewMode
  [SidebarEffect.setViewState leaf.id file.path mode true]
    ++ (if s.sidebarAutoReveal then [SidebarEffect.revealLeaf leaf.id] else [])
    ++ (if s.sidebarAutoFocus then [SidebarEffect.setActiveLeaf leaf.id true] else [])
    ++ (if disposedAtTimer then [] else [SidebarEffect.setEphemeralState leaf.id eState])

/-! ## Popover pinning (src/main.ts, spawnPopover lines 833-839)

Modelled from the spec: the `HoverEditor` popover class (src/popover.ts)
is not part of this snapshot; per spec section 4.2, `togglePin(explicit)`
sets the pinned flag and pinned popovers ignore pointer-leave close
timers.  The state is paired with an operation trace so the order of the
`spawnPopover` steps is observable. -/

/-- Recorded popover lifecycle operations. -/
inductive PopStep where
  | created
  | pinSet (value : Bool)
  | leafAttach
  | closeTimerStart (delay : Int)
  deriving Repr, DecidableEq

/-- Modelled from the spec: popover state (pinned flag, pending
pointer-leave close timer, whether the leaf is attached); src/popover.ts
is missing from the snapshot. -/
structure HoverEditorM where
  pinned : Bool
  closeTimer : Option Int
  leafAttached : Bool
  deriving Repr, DecidableEq

/-- `new HoverEditor(...)`: fresh, unpinned, no timer, leaf not yet
attached. -/
def newHoverEditor : HoverEditorM × List PopStep :=
  (⟨false, none, false⟩, [PopStep.created])

/-- Modelled from the spec: `togglePin(value)` sets the pinned flag. -/
def togglePinT (p : HoverEditorM × List PopStep) (value : Bool) :
    HoverEditorM × List PopStep :=
  ({ p.1 with pinned := value }, p.2 ++ [PopStep.pinSet value])

/-- Modelled from the spec: `attachLeaf()` attaches the popover's leaf. -/
def attachLeafT (p : HoverEditorM × List PopStep) :
    HoverEditorM × List PopStep :=
  ({ p.1 with leafAttached := true }, p.2 ++ [PopStep.leafAttach])

/-- Modelled from the spec: a pointer-leave starts the close-delay timer
unless the popover is pinned (pinned popovers ignore pointer-leave close
timers, spec section 4.2). -/
def pointerLeaveT (closeDelay : Int) (p : HoverEditorM × List PopStep) :
    HoverEditorM × List PopStep :=
  if p.1.pinned then p
  else ({ p.1 with closeTimer := some closeDelay },
        p.2 ++ [PopStep.closeTimerStart closeDelay])

/-- `spawnPopover` (src/main.ts lines 833-839): construct the popover,
`togglePin(true)`, then `attachLeaf()`. -/
def spawnPopover : HoverEditorM × List PopStep :=
  attachLeafT (togglePinT newHoverEditor true)

/-! ## Theorems -/

/-- C2: link classification is a total function of the link text with
subpath-prefix precedence — for every link text with a non-empty parsed
subpath, a `#[^` prefix classifies it as Footnote (the `footnotes` mode
setting); otherwise a `#^` prefix classifies it as Block (`blocks`);
otherwise it is Heading (`headings`).  The footnote check precedes the
block check, which precedes heading. -/
theorem c2_classification_precedence (s : HoverEditorSettings) (lt : JSString)
    (hne : (parseLinktext lt).subpath ≠ []) :
    (('#' :: '[' :: '^' :: []).isPrefixOf (parseLinktext lt).subpath = true →
      onLinkHoverMode s lt = s.footnotes) ∧
    (('#' :: '[' :: '^' :: []).isPrefixOf (parseLinktext lt).subpath = false →
      ('#' :: '^' :: []).isPrefixOf (parseLinktext lt).subpath = true →
      onLinkHoverMode s lt = s.blocks) ∧
    (('#' :: '[' :: '^' :: []).isPrefixOf (parseLinktext lt).subpath = false →
      ('#' :: '^' :: []).isPrefixOf (parseLinktext lt).subpath = false →
      onLinkHoverMode s lt = s.headings) := by
  have hhead : (parseLinktext lt).subpath.head? = some '#' := by
    rcases parseLinktext_subpath_head lt with h | h
    · exact absurd h hne
    · exact h
  refine ⟨fun h1 => ?_, fun h1 h2 => ?_, fun h1 h2 => ?_⟩
  · simp [onLinkHoverMode, hhead, h1]
  · simp [onLinkHoverMode, hhead, h1, h2]
  · simp [onLinkHoverMode, hhead, h1, h2]

/-- Witness for C2 at a concrete input: `"Note#[^1]"` has the footnote
sigil and classifies to the `footnotes` setting (`"native"` under the
defaults). -/
theorem c2_classification_precedence_witness :
    onLinkHoverMode DEFAULT_SETTINGS ("Note#[^1]".toList)
      = DEFAULT_SETTINGS.footnotes :=
  (c2_classification_precedence DEFAULT_SETTINGS ("Note#[^1]".toList)
    (by decide)).1 (by decide)

/-- C3: for every link text with an empty parsed subpath, a leading `!`
classifies it as Embed (the `hoverEmbeds` mode setting) and otherwise it
is Regular (the `regularLinks` mode setting). -/
theorem c3_empty_subpath_classification (s : HoverEditorSettings) (lt : JSString)
    (hemp : (parseLinktext lt).subpath = []) :
    (('!' :: []).isPrefixOf lt = true → onLinkHoverMode s lt = s.hoverEmbeds) ∧
    (('!' :: []).isPrefixOf lt = false → onLinkHoverMode s lt = s.regularLinks) := by
  constructor <;> intro h1 <;> simp [onLinkHoverMode, hemp, h1]

/-- Witness for C3 at concrete inputs: `"!img.png"` classifies to the
`hoverEmbeds` setting and `"Note"` to the `regularLinks` setting. -/
theorem c3_empty_subpath_classification_witness :
    onLinkHoverMode DEFAULT_SETTINGS ("!img.png".toList)
        = DEFAULT_SETTINGS.hoverEmbeds ∧
    onLinkHoverMode DEFAULT_SETTINGS ("Note".toList)
        = DEFAULT_SETTINGS.regularLinks :=
  ⟨(c3_empty_subpath_classification DEFAULT_SETTINGS ("!img.png".toList)
      (by decide)).1 (by decide),
   (c3_empty_subpath_classification DEFAULT_SETTINGS ("Note".toList)
      (by decide)).2 (by decide)⟩

/-- C4: when `handleHover` runs for a hover whose mode is Floating or
Sidebar and link resolution yields no file, it falls back to the host's
native behaviour with the original arguments — the hover is not dropped
and no popover or sidebar open is attempted. -/
theorem c4_unresolved_falls_back_native (mode : String)
    (resolve : JSString → JSString → Option TFile) (args : HoverArgs)
    (_hmode : mode = "floating" ∨ mode = "sidebar")
    (hres : resolve (parseLinktext args.linkText).path args.path = none) :
    handleHover mode resolve args = HoverAction.callNative args := by
  simp [handleHover, hres]

/-- Witness for C4 at a concrete input: a resolver that never finds a
file makes `handleHover` fall back to the native call. -/
theorem c4_unresolved_falls_back_native_witness :
    handleHover "floating" (fun _ _ => none) ⟨1, 2, "Note".toList, "src.md".toList⟩
      = HoverAction.callNative ⟨1, 2, "Note".toList, "src.md".toList⟩ :=
  c4_unresolved_falls_back_native "floating" (fun _ _ => none)
    ⟨1, 2, "Note".toList, "src.md".toList⟩ (Or.inl rfl) rfl

/-- C6: when the classified mode is Native, the patched `onLinkHover`
delegates unchanged to the host's built-in behaviour with the original
arguments — no trigger delay, no popover, no sidebar. -/
theorem c6_native_mode_passthrough (s : HoverEditorSettings)
    (resolve : JSString → JSString → Option TFile) (args : HoverArgs)
    (hmode : onLinkHoverMode s args.linkText = "native") :
    onLinkHoverDispatch s resolve args = DispatchResult.immediateNative args := by
  simp [onLinkHoverDispatch, hmode]

/-- Witness for C6 at a concrete input: under the default settings a
footnote link (`footnotes = "native"`) passes straight through. -/
theorem c6_native_mode_passthrough_witness :
    onLinkHoverDispatch DEFAULT_SETTINGS (fun _ _ => none)
        ⟨1, 2, "Note#[^1]".toList, "src.md".toList⟩
      = DispatchResult.immediateNative ⟨1, 2, "Note#[^1]".toList, "src.md".toList⟩ :=
  c6_native_mode_passthrough DEFAULT_SETTINGS (fun _ _ => none)
    ⟨1, 2, "Note#[^1]".toList, "src.md".toList⟩ (by decide)

/-- C1 counterexample: the claim "two hover events on the same target
within `triggerDelay` produce exactly one scheduled action" is false —
under the default settings (`regularLinks = "sidebar"`,
`triggerDelay = 300`), two hover events on target 7 for the link
`"Note"`, the second arriving while the first timer is still pending,
leave two scheduled delayed actions for target 7, not one. -/
theorem c1_counterexample :
    (onLinkHoverSchedule DEFAULT_SETTINGS
        (onLinkHoverSchedule DEFAULT_SETTINGS [] 7 ("Note".toList))
        7 ("Note".toList))
      = [⟨7, 300⟩, ⟨7, 300⟩] ∧
    ¬ (onLinkHoverSchedule DEFAULT_SETTINGS
        (onLinkHoverSchedule DEFAULT_SETTINGS [] 7 ("Note".toList))
        7 ("Note".toList)).length = 1 := by
  decide

/-- C1 amended: the resolver does not debounce by target — every hover
event whose mode is not Native and whose trigger delay is positive
appends exactly one new delayed action to the pending list,
unconditionally, so two hover events on the same target within the
trigger delay produce two scheduled actions (one each), not one. -/
theorem c1_amended_no_debounce (s : HoverEditorSettings)
    (pending : List PendingHover) (targetEl : Nat) (lt : JSString)
    (hmode : onLinkHoverMode s lt ≠ "native") (hdelay : s.triggerDelay > 0) :
    onLinkHoverSchedule s pending targetEl lt
      = pending ++ [⟨targetEl, s.triggerDelay⟩] ∧
    (onLinkHoverSchedule s (onLinkHoverSchedule s pending targetEl lt)
        targetEl lt).length
      = pending.length + 2 := by
  have h1 : onLinkHoverSchedule s pending targetEl lt
      = pending ++ [⟨targetEl, s.triggerDelay⟩] := by
    simp [onLinkHoverSchedule, hmode, hdelay]
  have h2 : onLinkHoverSchedule s (pending ++ [⟨targetEl, s.triggerDelay⟩])
      targetEl lt
      = (pending ++ [⟨targetEl, s.triggerDelay⟩]) ++ [⟨targetEl, s.triggerDelay⟩] := by
    simp [onLinkHoverSchedule, hmode, hdelay]
  refine ⟨h1, ?_⟩
  rw [h1, h2]
  simp

/-- Witness for the amended C1 at a concrete input: two hovers on target
7 under the default settings append two timers. -/
theorem c1_amended_no_debounce_witness :
    onLinkHoverSchedule DEFAULT_SETTINGS [] 7 ("Note".toList)
      = [⟨7, 300⟩] ∧
    (onLinkHoverSchedule DEFAULT_SETTINGS
        (onLinkHoverSchedule DEFAULT_SETTINGS [] 7 ("Note".toList))
        7 ("Note".toList)).length = 2 :=
  c1_amended_no_debounce DEFAULT_SETTINGS [] 7 ("Note".toList)
    (by decide) (by decide)

/-- C5: the plugin tracks at most one sidebar leaf — `openFileInSidebar`
keeps the tracked leaf whenever it exists and is not disposed, reacquires
exactly when it is null or disposed, and the acquisition takes the
configured side, preferring an existing leaf (`getLeaf(false)`) and
creating one (`getLeaf(true)`) only when none exists. -/
theorem c5_single_sidebar_session (s : HoverEditorSettings)
    (host : SidebarHost) (cur : Option WorkspaceLeafM) :
    (∀ leaf, cur = some leaf → leaf.disposed = false →
      updateSidebarLeaf s host cur = some leaf) ∧
    ((cur = none ∨ ∃ leaf, cur = some leaf ∧ leaf.disposed = true) →
      updateSidebarLeaf s host cur = acquireSidebarLeaf s host) ∧
    (s.sidebarPosition = "left" →
      (∀ leaf, host.getLeftLeaf false = some leaf →
        acquireSidebarLeaf s host = some leaf) ∧
      (host.getLeftLeaf false = none →
        acquireSidebarLeaf s host = host.getLeftLeaf true)) ∧
    (s.sidebarPosition ≠ "left" →
      (∀ leaf, host.getRightLeaf false = some leaf →
        acquireSidebarLeaf s host = some leaf) ∧
      (host.getRightLeaf false = none →
        acquireSidebarLeaf s host = host.getRightLeaf true)) := by
  refine ⟨?_, ?_, ?_, ?_⟩
  · intro leaf hcur hlive
    subst hcur
    simp [updateSidebarLeaf, hlive]
  · rintro (hcur | ⟨leaf, hcur, hdisp⟩) <;> subst hcur
    · simp [updateSidebarLeaf]
    · simp [updateSidebarLeaf, hdisp]
  · intro hside
    constructor
    · intro leaf hleaf
      simp [acquireSidebarLeaf, hside, hleaf, Option.orElse]
    · intro hleaf
      simp [acquireSidebarLeaf, hside, hleaf, Option.orElse]
  · intro hside
    constructor
    · intro leaf hleaf
      simp [acquireSidebarLeaf, hside, hleaf, Option.orElse]
    · intro hleaf
      simp [acquireSidebarLeaf, hside, hleaf, Option.orElse]

/-- Witness for C5 at concrete inputs: a live tracked leaf is reused
unchanged, and a disposed one is replaced by the existing right-side
leaf under the default settings (`sidebarPosition = "right"`). -/
theorem c5_single_sidebar_session_witness :
    updateSidebarLeaf DEFAULT_SETTINGS
        ⟨fun _ => none, fun b => if b then none else some ⟨9, false⟩⟩
        (some ⟨4, false⟩)
      = some ⟨4, false⟩ ∧
    updateSidebarLeaf DEFAULT_SETTINGS
        ⟨fun _ => none, fun b => if b then none else some ⟨9, false⟩⟩
        (some ⟨4, true⟩)
      = acquireSidebarLeaf DEFAULT_SETTINGS
          ⟨fun _ => none, fun b => if b then none else some ⟨9, false⟩⟩ :=
  ⟨(c5_single_sidebar_session DEFAULT_SETTINGS
      ⟨fun _ => none, fun b => if b then none else some ⟨9, false⟩⟩
      (some ⟨4, false⟩)).1 ⟨4, false⟩ rfl rfl,
   (c5_single_sidebar_session DEFAULT_SETTINGS
      ⟨fun _ => none, fun b => if b then none else some ⟨9, false⟩⟩
      (some ⟨4, true⟩)).2.1 (Or.inr ⟨⟨4, true⟩, rfl, rfl⟩)⟩

/-- C9: revealing and focusing the sidebar pane are independent — the
`revealLeaf` host call occurs iff `sidebarAutoReveal`, the focusing
`setActiveLeaf` call occurs iff `sidebarAutoFocus`, and in particular
with `sidebarAutoReveal = true` and `sidebarAutoFocus = false` the pane
is revealed while no `setActiveLeaf` call is made at all, so the focus
step leaves the previously active pane untouched. -/
theorem c9_reveal_focus_independent (s : HoverEditorSettings)
    (resolveSubpath : FileCache → JSString → Option ResolvedRange)
    (cache : Option FileCache) (activeViewMode : Option String)
    (leaf : WorkspaceLeafM) (file : TFile) (linkText : JSString)
    (oldState : Option EphemeralStateM) (disposedAtTimer : Bool) :
    (SidebarEffect.revealLeaf leaf.id
        ∈ openFileInSidebarEffects s resolveSubpath cache activeViewMode
            leaf file linkText oldState disposedAtTimer
      ↔ s.sidebarAutoReveal = true) ∧
    (SidebarEffect.setActiveLeaf leaf.id true
        ∈ openFileInSidebarEffects s resolveSubpath cache activeViewMode
            leaf file linkText oldState disposedAtTimer
      ↔ s.sidebarAutoFocus = true) ∧
    (s.sidebarAutoReveal = true → s.sidebarAutoFocus = false →
      SidebarEffect.revealLeaf leaf.id
          ∈ openFileInSidebarEffects s resolveSubpath cache activeViewMode
              leaf file linkText oldState disposedAtTimer ∧
      ∀ leafId focus, SidebarEffect.setActiveLeaf leafId focus
          ∉ openFileInSidebarEffects s resolveSubpath cache activeViewMode
              leaf file linkText oldState disposedAtTimer) := by
  cases hr : s.sidebarAutoReveal <;> cases hf : s.sidebarAutoFocus <;>
    cases hd : disposedAtTimer <;>
    simp [openFileInSidebarEffects, hr, hf, hd]

/-- Witness for C9 at concrete inputs: with the default settings
(`sidebarAutoReveal = true`, `sidebarAutoFocus = false`), opening
`"Note#Heading"` in leaf 3 emits a reveal and no `setActiveLeaf` call. -/
theorem c9_reveal_focus_independent_witness :
    SidebarEffect.revealLeaf 3
        ∈ openFileInSidebarEffects DEFAULT_SETTINGS (fun _ _ => none) none none
            ⟨3, false⟩ ⟨"Note.md".toList⟩ ("Note#Heading".toList) none false ∧
    ∀ leafId focus, SidebarEffect.setActiveLeaf leafId focus
        ∉ openFileInSidebarEffects DEFAULT_SETTINGS (fun _ _ => none) none none
            ⟨3, false⟩ ⟨"Note.md".toList⟩ ("Note#Heading".toList) none false :=
  (c9_reveal_focus_independent DEFAULT_SETTINGS (fun _ _ => none) none none
      ⟨3, false⟩ ⟨"Note.md".toList⟩ ("Note#Heading".toList) none false).2.2
    rfl rfl

/-- C7 counterexample: the claim "for every link text containing `#` the
ephemeral state's subpath field is the `#`-prefixed subpath" is false —
for the link text `"Note#"` (which contains `#`), `split("#")[1]` is the
empty string, so `subpath ? ... : undefined` leaves the subpath field
absent: no anchor hint is carried forward. -/
theorem c7_counterexample :
    ("Note#".toList).contains '#' = true ∧
    (buildEphemeralState (fun _ _ => none) none ("Note#".toList) none).subpath
      = none := by
  decide

/-- C7 amended: for every link text containing `#` whose segment between
the first and second `#` is non-empty, and whenever the supplied prior
state does not itself carry a subpath field, the computed ephemeral
state's subpath is `#` followed by that segment even when structural
resolution fails; and whenever the segment resolves against the file's
structural index, the state additionally carries the resolved line and
start/end positions. -/
theorem c7_amended_anchor_hint
    (resolveSubpath : FileCache → JSString → Option ResolvedRange)
    (cache : Option FileCache) (linktext : JSString)
    (oldState : Option EphemeralStateM)
    (hc : linktext.contains '#' = true)
    (hseg : (splitOnHash linktext).getD 1 [] ≠ [])
    (hold : ∀ o, oldState = some o → o.subpath = none) :
    (buildEphemeralState resolveSubpath cache linktext oldState).subpath
      = some ('#' :: (splitOnHash linktext).getD 1 []) ∧
    (∀ c r, cache = some c →
      resolveSubpath c ((splitOnHash linktext).getD 1 []) = some r →
      (buildEphemeralState resolveSubpath cache linktext oldState).line
          = some r.start.line ∧
      (buildEphemeralState resolveSubpath cache linktext oldState).startLoc
          = some r.start ∧
      (buildEphemeralState resolveSubpath cache linktext oldState).endLoc
          = some r.rend) := by
  have hc' : '#' ∈ linktext := by simpa using hc
  have hgd : (splitOnHash linktext).getD 1 [] = (splitOnHash linktext)[1]?.getD [] := by
    simp [List.getD]
  have hseg' : ¬(splitOnHash linktext)[1]?.getD [] = [] := hgd ▸ hseg
  refine ⟨?_, ?_⟩
  · rcases cache with _ | c
    · rcases oldState with _ | o
      · simp [buildEphemeralState, hc', hseg']
      · have hsub := hold o rfl
        simp [buildEphemeralState, hc', hseg', hsub, Option.orElse]
    · rcases hres : resolveSubpath c ((splitOnHash linktext)[1]?.getD []) with _ | r0 <;>
        rcases oldState with _ | o
      · simp [buildEphemeralState, hc', hseg', hres]
      · have hsub := hold o rfl
        simp [buildEphemeralState, hc', hseg', hres, hsub, Option.orElse]
      · simp [buildEphemeralState, hc', hseg', hres]
      · have hsub := hold o rfl
        simp [buildEphemeralState, hc', hseg', hres, hsub, Option.orElse]
  · intro c r hcc hr
    subst hcc
    rw [hgd] at hr
    rcases oldState with _ | o
    · simp [buildEphemeralState, hc', hseg', hr]
    · have hsub := hold o rfl
      simp [buildEphemeralState, hc', hseg', hr, hsub, Option.orElse]

/-- Concrete structural-resolution collaborator used only by the C7
witness: resolves the subpath `"Head"` to lines 3-4. -/
def c7DemoResolve : FileCache → JSString → Option ResolvedRange :=
  fun _ sub =>
    if sub = ('H' :: 'e' :: 'a' :: 'd' :: []) then
      some ⟨⟨3, 0, 10⟩, ⟨4, 1, 20⟩⟩
    else none

/-- Witness for the amended C7 at a concrete input: `"Note#Head"` with a
cache in which `"Head"` resolves to line 3 yields the `#Head` anchor hint
together with the resolved positions. -/
theorem c7_amended_anchor_hint_witness :
    (buildEphemeralState c7DemoResolve (some ⟨0⟩)
        ("Note#Head".toList) none).subpath
      = some ('#' :: "Head".toList) ∧
    (buildEphemeralState c7DemoResolve (some ⟨0⟩)
        ("Note#Head".toList) none).line = some 3 := by
  have h := c7_amended_anchor_hint c7DemoResolve (some ⟨0⟩)
    ("Note#Head".toList) none (by decide) (by decide)
    (fun o ho => nomatch ho)
  refine ⟨?_, ?_⟩
  · rw [h.1]
    decide
  · exact (h.2 ⟨0⟩ ⟨⟨3, 0, 10⟩, ⟨4, 1, 20⟩⟩ rfl (by decide)).1

/-- C8 counterexample: the claim that an unrecognized string stored for
an enumerated field is rejected or replaced by the default is false —
storing `"bogus"` for `regularLinks` makes `loadSettings` use `"bogus"`
as-is, which is not one of `native`/`floating`/`sidebar` and not the
default either. -/
theorem c8_counterexample :
    (loadSettings (some { regularLinks := some "bogus" })).regularLinks
      = "bogus" ∧
    "bogus" ∉ ["native", "floating", "sidebar"] ∧
    "bogus" ≠ DEFAULT_SETTINGS.regularLinks := by
  refine ⟨rfl, ?_, ?_⟩ <;> decide

/-- C8 amended: settings loading is total over stored records — every
settings key missing from the persisted data takes its value from the
fixed default table, and every key that is present is used exactly as
stored, with no validation of enumerated string fields. -/
theorem c8_amended_loading_defaults (o : StoredSettingsData) :
    loadSettings none = DEFAULT_SETTINGS ∧
    (loadSettings (some o)).defaultMode
        = o.defaultMode.getD DEFAULT_SETTINGS.defaultMode ∧
    (loadSettings (some o)).autoPin = o.autoPin.getD DEFAULT_SETTINGS.autoPin ∧
    (loadSettings (some o)).triggerDelay
        = o.triggerDelay.getD DEFAULT_SETTINGS.triggerDelay ∧
    (loadSettings (some o)).closeDelay
        = o.closeDelay.getD DEFAULT_SETTINGS.closeDelay ∧
    (loadSettings (some o)).autoFocus
        = o.autoFocus.getD DEFAULT_SETTINGS.autoFocus ∧
    (loadSettings (some o)).rollDown
        = o.rollDown.getD DEFAULT_SETTINGS.rollDown ∧
    (loadSettings (some o)).snapToEdges
        = o.snapToEdges.getD DEFAULT_SETTINGS.snapToEdges ∧
    (loadSettings (some o)).initialHeight
        = o.initialHeight.getD DEFAULT_SETTINGS.initialHeight ∧
    (loadSettings (some o)).initialWidth
        = o.initialWidth.getD DEFAULT_SETTINGS.initialWidth ∧
    (loadSettings (some o)).showViewHeader
        = o.showViewHeader.getD DEFAULT_SETTINGS.showViewHeader ∧
    (loadSettings (some o)).imageZoom
        = o.imageZoom.getD DEFAULT_SETTINGS.imageZoom ∧
    (loadSettings (some o)).footnotes
        = o.footnotes.getD DEFAULT_SETTINGS.footnotes ∧
    (loadSettings (some o)).headings
        = o.headings.getD DEFAULT_SETTINGS.headings ∧
    (loadSettings (some o)).blocks = o.blocks.getD DEFAULT_SETTINGS.blocks ∧
    (loadSettings (some o)).hoverEmbeds
        = o.hoverEmbeds.getD DEFAULT_SETTINGS.hoverEmbeds ∧
    (loadSettings (some o)).sidebarAutoFocus
        = o.sidebarAutoFocus.getD DEFAULT_SETTINGS.sidebarAutoFocus ∧
    (loadSettings (some o)).sidebarPosition
        = o.sidebarPosition.getD DEFAULT_SETTINGS.sidebarPosition ∧
    (loadSettings (some o)).sidebarAutoReveal
        = o.sidebarAutoReveal.getD DEFAULT_SETTINGS.sidebarAutoReveal ∧
    (loadSettings (some o)).regularLinks
        = o.regularLinks.getD DEFAULT_SETTINGS.regularLinks :=
  ⟨rfl, rfl, rfl, rfl, rfl, rfl, rfl, rfl, rfl, rfl,
   rfl, rfl, rfl, rfl, rfl, rfl, rfl, rfl, rfl, rfl⟩

/-- C10: every popover created through `spawnPopover` is pinned at
creation — `togglePin(true)` runs before `attachLeaf()` — and pinned
popovers never start a pointer-leave close timer, so any sequence of
pointer-leave events leaves such a popover unchanged: it persists until
explicitly closed. -/
theorem c10_spawned_popovers_pinned :
    spawnPopover.1.pinned = true ∧
    spawnPopover.2.indexOf (PopStep.pinSet true)
      < spawnPopover.2.indexOf PopStep.leafAttach ∧
    ∀ leaves : List Int,
      leaves.foldl (fun p d => pointerLeaveT d p) spawnPopover = spawnPopover := by
  have hstep : ∀ d, pointerLeaveT d spawnPopover = spawnPopover := by
    intro d
    simp [pointerLeaveT, spawnPopover, attachLeafT, togglePinT, newHoverEditor]
  refine ⟨rfl, by decide, ?_⟩
  intro leaves
  induction leaves with
  | nil => rfl
  | cons d rest ih =>
    calc (d :: rest).foldl (fun p d => pointerLeaveT d p) spawnPopover
        = rest.foldl (fun p d => pointerLeaveT d p) (pointerLeaveT d spawnPopover) := rfl
      _ = rest.foldl (fun p d => pointerLeaveT d p) spawnPopover := by rw [hstep d]
      _ = spawnPopover := ih

end DynamicPreviewEditors
